import Mathlib

/-!
Verification of the acquisition and pagination-control subsystem of the
SaaS review scraper (`reviewScraper.js`).

The JavaScript source is embedded shallowly:
* machine integers / JS numbers become `Nat` / `Int`;
* `Date` values become epoch instants modelled as `Int`; the external
  date-parse collaborator (`parseDate`, consumed as an opaque
  "string to calendar date or failure" function per the spec) is a
  parameter of type `String → Option Int`;
* fallible steps (axios rejections, playwright throws) become explicit
  outcome values supplied by an environment, so the `try`/`catch`
  structure of the source is explicit case analysis;
* object identity (browser / page handles) is modelled by an allocation
  counter: every construction of a fresh JS object draws a fresh number.
-/

namespace SaaSReviewScraper

/-! ## Date-window filter (`ReviewScraper.isDateInRange`, lines 86-89) -/

/-- Embedding of `isDateInRange(reviewDate, startDate, endDate)`:
`if (!reviewDate) return false; return reviewDate >= startDate && reviewDate <= endDate;`.
A `null` parse result is `none`. -/
def isDateInRange (reviewDate : Option Int) (startDate endDate : Int) : Bool :=
  match reviewDate with
  | none => false
  | some d => decide (startDate ≤ d) && decide (d ≤ endDate)

theorem isDateInRange_eq_true {d : Option Int} {s e : Int} :
    isDateInRange d s e = true ↔ ∃ dd, d = some dd ∧ s ≤ dd ∧ dd ≤ e := by
  cases d <;> simp [isDateInRange]

/-! ## HTTP retry loop (`ReviewScraper.safeRequest`, lines 102-147) -/

/-- Outcome of one axios GET attempt: `resp status` models a resolved
promise (axios resolves for 2xx statuses), `err statusCode` models a
rejected promise carrying `error.response?.status` (which is `none` for
network errors without a response). Every throw inside the `try` block
is captured by `err`, so the `catch` handler sees exactly these cases. -/
inductive ReqOutcome where
  | resp (status : Nat)
  | err (statusCode : Option Nat)
deriving DecidableEq, Repr

/-- Observable result of `safeRequest`: `result` is `some 200` when a
response object is returned (the code returns a response only after
checking `response.status === 200`) and `none` for the `return null`
paths; `requests` counts issued attempts; `rlWaits` records the
rate-limit backoff waits `Math.pow(2, attempt) * 2000` in order. -/
structure ReqResult where
  result : Option Nat
  requests : Nat
  rlWaits : List Nat
deriving DecidableEq, Repr

/-- One-to-one embedding of the `for (let attempt = 0; attempt < maxRetries; ...)`
loop of `safeRequest`. `remaining` is `maxRetries - attempt`, so the
source's last-attempt test `attempt === maxRetries - 1` is `remaining = 0`
after consuming the current attempt. -/
def safeRequestGo (env : Nat → ReqOutcome) : Nat → Nat → ReqResult
  | 0, _ => { result := none, requests := 0, rlWaits := [] }
  | remaining + 1, attempt =>
    match env attempt with
    | .resp status =>
      if status = 200 then
        { result := some 200, requests := 1, rlWaits := [] }
      else
        let rest := safeRequestGo env remaining (attempt + 1)
        { rest with requests := rest.requests + 1 }
    | .err statusCode =>
      if statusCode = some 429 then
        let rest := safeRequestGo env remaining (attempt + 1)
        { result := rest.result, requests := rest.requests + 1,
          rlWaits := 2 ^ attempt * 2000 :: rest.rlWaits }
      else if statusCode = some 403 then
        let rest := safeRequestGo env remaining (attempt + 1)
        { rest with requests := rest.requests + 1 }
      else if statusCode = some 404 then
        { result := none, requests := 1, rlWaits := [] }
      else if remaining = 0 then
        { result := none, requests := 1, rlWaits := [] }
      else
        let rest := safeRequestGo env remaining (attempt + 1)
        { rest with requests := rest.requests + 1 }

/-- Embedding of `safeRequest(url, maxRetries = 3)`; the URL only selects
the environment, so it is folded into `env`. -/
def safeRequest (env : Nat → ReqOutcome) (maxRetries : Nat) : ReqResult :=
  safeRequestGo env maxRetries 0

/-! ## User-agent pool (`getRandomUserAgent`, lines 152-160) -/

/-- The fixed pool of the four user-agent strings from the source. -/
def userAgents : List String :=
  ["Mozilla/5.0 (Windows NT 10.0; Win64; x64) AppleWebKit/537.36 (KHTML, like Gecko) Chrome/120.0.0.0 Safari/537.36",
   "Mozilla/5.0 (Macintosh; Intel Mac OS X 10_15_7) AppleWebKit/537.36 (KHTML, like Gecko) Chrome/120.0.0.0 Safari/537.36",
   "Mozilla/5.0 (Windows NT 10.0; Win64; x64; rv:109.0) Gecko/20100101 Firefox/121.0",
   "Mozilla/5.0 (Macintosh; Intel Mac OS X 10_15_7) AppleWebKit/605.1.15 (KHTML, like Gecko) Version/17.1 Safari/605.1.15"]

/-- The `User-Agent` header installed by the constructor (line 32); it is
literally the first entry of the pool. -/
def defaultUserAgent : String :=
  "Mozilla/5.0 (Windows NT 10.0; Win64; x64) AppleWebKit/537.36 (KHTML, like Gecko) Chrome/120.0.0.0 Safari/537.36"

/-- Embedding of `getRandomUserAgent()`: `userAgents[Math.floor(Math.random() * userAgents.length)]`,
with the random draw made explicit as an index. -/
def getRandomUserAgent (r : Fin userAgents.length) : String :=
  userAgents.get r

/-- The 403 handler (line 127) overwrites the current header with
`getRandomUserAgent()`; the current agent is not consulted. -/
def rotateUserAgent (current : String) (r : Fin userAgents.length) : String :=
  getRandomUserAgent r

/-! ## Challenge detector (`detectCaptcha`, G2 lines 318-365, Capterra 876-924) -/

/-- Page state seen by the detector: `selectorFound sel` models
`await this.page.$(sel)` (did a matching element exist), `content` models
`await this.page.content()`; either step may throw, hence `Except`. -/
structure PageEnv where
  selectorFound : String → Except Unit Bool
  content : Except Unit String

/-- The nine structural challenge markers shared by both detectors. -/
def captchaSelectors : List String :=
  [".g-recaptcha",
   "#recaptcha",
   "[data-testid*=\"captcha\"]",
   ".captcha",
   ".cf-browser-verification",
   ".challenge-running",
   "iframe[src*=\"recaptcha\"]",
   "iframe[src*=\"captcha\"]",
   ".cloudflare-browser-verification"]

/-- Textual challenge signals of `G2Scraper.detectCaptcha` (lines 342-352). -/
def g2CaptchaText : List String :=
  ["please complete the security check",
   "verify you are human",
   "prove you are not a robot",
   "complete the captcha",
   "security verification",
   "checking your browser",
   "cloudflare",
   "Verifying you are human. This may take a few seconds.",
   "just a moment while we check your browser"]

/-- Textual challenge signals of `CapterraScraper.detectCaptcha` (lines 900-911). -/
def capterraCaptchaText : List String :=
  ["please complete the security check",
   "verify you are human",
   "prove you are not a robot",
   "complete the captcha",
   "security verification",
   "checking your browser",
   "Verifying you are human. This may take a few seconds.",
   "Verify you are human by completing the action below.",
   "browser verification",
   "security check"]

/-- The `for (const selector of captchaSelectors)` loop: returns `true` on
the first selector whose element query finds something, propagating any
query error. -/
def checkSelectors (env : PageEnv) : List String → Except Unit Bool
  | [] => pure false
  | sel :: rest => do
    let found ← env.selectorFound sel
    if found then pure true else checkSelectors env rest

/-- JavaScript `hay.toLowerCase().includes(needle)`: note the needle is
not lowercased by the source. -/
def jsIncludesLower (hay needle : String) : Bool :=
  decide (needle.toList <:+: hay.toLower.toList)

/-- The body of `detectCaptcha` up to but excluding its `catch`: selector
probes, then `content.toLowerCase().includes(text)` over the text list. -/
def detectCaptchaTry (texts : List String) (env : PageEnv) : Except Unit Bool := do
  let foundSel ← checkSelectors env captchaSelectors
  if foundSel then
    pure true
  else do
    let content ← env.content
    pure (texts.any (fun t => jsIncludesLower content t))

/-- Full `detectCaptcha`: the surrounding `try`/`catch` maps every error
to `return false`, so the function is total. -/
def detectCaptcha (texts : List String) (env : PageEnv) : Bool :=
  match detectCaptchaTry texts env with
  | .ok b => b
  | .error _ => false

/-- `G2Scraper.detectCaptcha` specialised to its text list. -/
def g2DetectCaptcha : PageEnv → Bool := detectCaptcha g2CaptchaText

/-- `CapterraScraper.detectCaptcha` specialised to its text list. -/
def capterraDetectCaptcha : PageEnv → Bool := detectCaptcha capterraCaptchaText

/-! ## Page-ready waiter (`waitForPageReady`, G2 lines 367-403) -/

/-- What one polling tick observes: `ok hasCaptcha urlMatches` bundles the
`detectCaptcha()` verdict and whether `page.url()` contains the expected
pattern; `errored` models a throw anywhere in the tick's `try` block
(handled by the `catch` with an extra 2000-unit wait). -/
inductive Tick where
  | ok (hasCaptcha : Bool) (urlMatches : Bool)
  | errored
deriving DecidableEq, Repr

/-- Embedding of the `while (Date.now() - startTime < maxWaitTime)` loop.
Time advances only at the explicit `waitForTimeout(2000)` suspensions
(2000 in the tick, a further 2000 in the error handler); `elapsed` is
`Date.now() - startTime`. Returns the result together with the elapsed
time at the moment of return. -/
def waitForPageReady (env : Nat → Tick) (hasPattern : Bool) (maxWaitTime : Nat)
    (i : Nat) (elapsed : Nat) : Bool × Nat :=
  if h : elapsed < maxWaitTime then
    match env i with
    | .errored => waitForPageReady env hasPattern maxWaitTime (i + 1) (elapsed + 2000 + 2000)
    | .ok hasCaptcha urlMatches =>
      if !hasCaptcha && (!hasPattern || urlMatches) then
        (true, elapsed + 2000)
      else
        waitForPageReady env hasPattern maxWaitTime (i + 1) (elapsed + 2000)
  else
    (false, elapsed)
termination_by maxWaitTime - elapsed
decreasing_by all_goals omega

/-! ## Browser session acquisition (`connectToExistingChrome`, lines 251-277 and 809-835) -/

/-- Mutable per-scraper connection state: `this.browser` and `this.page`
hold handles identified by allocation numbers; `nextHandle` is the
allocation counter standing for JS object identity (each freshly
constructed playwright object gets a new number). -/
structure ScraperConn where
  browser : Option Nat
  page : Option Nat
  nextHandle : Nat
deriving DecidableEq, Repr

/-- How one `connectOverCDP` call can go: the connect itself throws, the
connected browser has no contexts (the method throws after assigning
`this.browser`), or it succeeds with or without pre-existing pages. -/
inductive CdpOutcome where
  | connectFail
  | noContexts
  | ok (hasPages : Bool)
deriving DecidableEq, Repr

/-- Embedding of `connectToExistingChrome`: it unconditionally calls
`chromium.connectOverCDP`, installing a freshly constructed browser
handle, and then installs a page handle of that new connection (either
`context.newPage()` or the fresh `pages()[0]` wrapper) — there is no
"already connected" check. Returns the updated state and the boolean the
method returns. -/
def connectToExistingChrome (st : ScraperConn) (outcome : CdpOutcome) :
    ScraperConn × Bool :=
  match outcome with
  | .connectFail => (st, false)
  | .noContexts =>
    ({ st with browser := some st.nextHandle, nextHandle := st.nextHandle + 1 }, false)
  | .ok _ =>
    ({ browser := some st.nextHandle, page := some (st.nextHandle + 1),
       nextHandle := st.nextHandle + 2 }, true)

/-! ## Pagination controller (`scrapeReviews`, G2 515-619, Capterra 1122-1237, TrustPilot 1464-1533) -/

/-- A record produced by `extractReviewData` for one review element; only
the raw date string matters to the pagination logic, the rest is carried
opaquely in `title`. -/
structure Item where
  title : String
  date : String
deriving DecidableEq, Repr

/-- What one iteration of the browser-backed loop observes for a page:
navigation failure (`navigateToPage` returned false), content failure
(`getPageContent` returned null), or a parsed page. `elems` lists the
review elements found by `findReviewElements` with the result of
`extractReviewData` on each (`none` when extraction yields nothing);
`captcha` and `captchaResolved` model `detectCaptcha()` and
`waitForPageReady` inside the empty-page branch. -/
inductive PageFetch where
  | navFail
  | contentFail
  | content (elems : List (Option Item)) (captcha : Bool) (captchaResolved : Bool)
deriving DecidableEq, Repr

/-- What one iteration of the HTTP-backed (TrustPilot) loop observes:
`safeRequest` returned null, or a page with its extraction results. -/
inductive HttpPage where
  | fetchFail
  | content (elems : List (Option Item))
deriving DecidableEq, Repr

/-- The loop-local mutable state of `scrapeReviews`, plus `fetched`, the
trace of page numbers for which a fetch (navigation / HTTP request) was
issued, recorded for stating halting properties. -/
structure LoopState where
  page : Nat
  consecutiveEmptyPages : Nat
  hasMorePages : Bool
  reviews : List Item
  fetched : List Nat
deriving DecidableEq, Repr

/-- The `while` condition
`hasMorePages && (maxPages === -1 || page <= maxPages) && consecutiveEmptyPages < threshold`. -/
def loopCond (threshold : Nat) (maxPages : Int) (st : LoopState) : Bool :=
  st.hasMorePages && (maxPages == -1 || decide ((st.page : Int) ≤ maxPages))
    && decide (st.consecutiveEmptyPages < threshold)

/-- The G2 loop condition (line 530): threshold literal 3. -/
def g2LoopCond : Int → LoopState → Bool := loopCond 3

/-- The Capterra loop condition (line 1140): threshold literal 1. -/
def capterraLoopCond : Int → LoopState → Bool := loopCond 1

/-- The TrustPilot loop condition (line 1479): threshold literal 3. -/
def trustpilotLoopCond : Int → LoopState → Bool := loopCond 3

/-- The `reviewElements.each` body shared verbatim by all three scrapers:
for each element, if extraction produced a record, parse its date; push
it and bump `pageReviews` when `isDateInRange`, else bump
`reviewsOutsideDateRange` when the date parsed and lies strictly before
`startDate`. Returns (pushed items in page order, `pageReviews`,
`reviewsOutsideDateRange`). -/
def processElems (parse : String → Option Int) (startDate endDate : Int) :
    List (Option Item) → List Item × Nat × Nat
  | [] => ([], 0, 0)
  | none :: rest => processElems parse startDate endDate rest
  | some reviewData :: rest =>
    let reviewDate := parse reviewData.date
    let res := processElems parse startDate endDate rest
    if isDateInRange reviewDate startDate endDate then
      (reviewData :: res.1, res.2.1 + 1, res.2.2)
    else
      match reviewDate with
      | some d => if d < startDate then (res.1, res.2.1, res.2.2 + 1) else res
      | none => res

/-- The browser-backed pagination loop of `G2Scraper.scrapeReviews` /
`CapterraScraper.scrapeReviews` (they differ only in the threshold).
`fuel` bounds the number of iterations; the source loop is genuinely
unbounded for `maxPages = -1`, and every claim below holds for all fuel.
Branches in source order: navigation failure, content failure, empty
element list (with the captcha-retry sub-branch that retries the same
page after `waitForPageReady` succeeds), and the processing branch with
the early-stop test `reviewsOutsideDateRange > pageReviews && page > 2`. -/
def sessionLoop (parse : String → Option Int) (startDate endDate : Int)
    (env : Nat → PageFetch) (threshold : Nat) (maxPages : Int) :
    Nat → LoopState → LoopState
  | 0, st => st
  | fuel + 1, st =>
    if loopCond threshold maxPages st then
      let st1 := { st with fetched := st.fetched ++ [st.page] }
      match env st.page with
      | .navFail =>
        sessionLoop parse startDate endDate env threshold maxPages fuel
          { st1 with consecutiveEmptyPages := st.consecutiveEmptyPages + 1,
                     page := st.page + 1 }
      | .contentFail =>
        sessionLoop parse startDate endDate env threshold maxPages fuel
          { st1 with consecutiveEmptyPages := st.consecutiveEmptyPages + 1,
                     page := st.page + 1 }
      | .content elems captcha captchaResolved =>
        match elems with
        | [] =>
          let st2 := { st1 with consecutiveEmptyPages := st.consecutiveEmptyPages + 1 }
          if captcha then
            if captchaResolved then
              sessionLoop parse startDate endDate env threshold maxPages fuel st2
            else
              sessionLoop parse startDate endDate env threshold maxPages fuel
                { st2 with page := st.page + 1 }
          else
            sessionLoop parse startDate endDate env threshold maxPages fuel
              { st2 with page := st.page + 1 }
        | _ :: _ =>
          let res := processElems parse startDate endDate elems
          let st2 := { st1 with consecutiveEmptyPages := 0,
                                reviews := st1.reviews ++ res.1 }
          if res.2.2 > res.2.1 ∧ st.page > 2 then
            sessionLoop parse startDate endDate env threshold maxPages fuel
              { st2 with hasMorePages := false }
          else
            sessionLoop parse startDate endDate env threshold maxPages fuel
              { st2 with page := st.page + 1 }
    else st

/-- The HTTP-backed pagination loop of `TrustPilotScraper.scrapeReviews`:
same shape but only one failure mode (`safeRequest` returned null) and no
captcha sub-branch in the empty-page case. Threshold is the literal 3 of
line 1479. -/
def httpLoop (parse : String → Option Int) (startDate endDate : Int)
    (env : Nat → HttpPage) (maxPages : Int) :
    Nat → LoopState → LoopState
  | 0, st => st
  | fuel + 1, st =>
    if trustpilotLoopCond maxPages st then
      let st1 := { st with fetched := st.fetched ++ [st.page] }
      match env st.page with
      | .fetchFail =>
        httpLoop parse startDate endDate env maxPages fuel
          { st1 with consecutiveEmptyPages := st.consecutiveEmptyPages + 1,
                     page := st.page + 1 }
      | .content elems =>
        match elems with
        | [] =>
          httpLoop parse startDate endDate env maxPages fuel
            { st1 with consecutiveEmptyPages := st.consecutiveEmptyPages + 1,
                       page := st.page + 1 }
        | _ :: _ =>
          let res := processElems parse startDate endDate elems
          let st2 := { st1 with consecutiveEmptyPages := 0,
                                reviews := st1.reviews ++ res.1 }
          if res.2.2 > res.2.1 ∧ st.page > 2 then
            httpLoop parse startDate endDate env maxPages fuel
              { st2 with hasMorePages := false }
          else
            httpLoop parse startDate endDate env maxPages fuel
              { st2 with page := st.page + 1 }
    else st

/-- The loop state at entry: `page = 1`, counters zero, empty lists. -/
def initState : LoopState :=
  { page := 1, consecutiveEmptyPages := 0, hasMorePages := true,
    reviews := [], fetched := [] }

/-- `G2Scraper.scrapeReviews` from the first page (threshold 3, line 530). -/
def g2ScrapeReviews (parse : String → Option Int) (startDate endDate : Int)
    (env : Nat → PageFetch) (maxPages : Int) (fuel : Nat) : LoopState :=
  sessionLoop parse startDate endDate env 3 maxPages fuel initState

/-- `CapterraScraper.scrapeReviews` from the first page (threshold 1, line 1140). -/
def capterraScrapeReviews (parse : String → Option Int) (startDate endDate : Int)
    (env : Nat → PageFetch) (maxPages : Int) (fuel : Nat) : LoopState :=
  sessionLoop parse startDate endDate env 1 maxPages fuel initState

/-- `TrustPilotScraper.scrapeReviews` from the first page. -/
def trustpilotScrapeReviews (parse : String → Option Int) (startDate endDate : Int)
    (env : Nat → HttpPage) (maxPages : Int) (fuel : Nat) : LoopState :=
  httpLoop parse startDate endDate env maxPages fuel initState

/-! ## Synthetic five-page listing for the early-stop scenario -/

/-- A concrete stand-in for the consumed date-parse collaborator, mapping
the demo date strings to instants. -/
def demoParse : String → Option Int
  | "100" => some 100
  | "101" => some 101
  | "102" => some 102
  | "1" => some 1
  | "2" => some 2
  | "3" => some 3
  | _ => none

/-- A page whose three items all fall in the window `[50, 200]`. -/
def inWindowPage : List (Option Item) :=
  [some { title := "in one", date := "100" },
   some { title := "in two", date := "101" },
   some { title := "in three", date := "102" }]

/-- A page whose three items are all dated strictly before the window start. -/
def beforeWindowPage : List (Option Item) :=
  [some { title := "out one", date := "1" },
   some { title := "out two", date := "2" },
   some { title := "out three", date := "3" }]

/-- The synthetic five-page listing: pages 1-2 entirely in-window, pages
3-5 entirely before the window start, later pages empty. -/
def syntheticListing : Nat → PageFetch := fun p =>
  if p ≤ 2 then PageFetch.content inWindowPage false false
  else if p ≤ 5 then PageFetch.content beforeWindowPage false false
  else PageFetch.content [] false false

/-- The same listing for the HTTP-backed loop. -/
def syntheticHttpListing : Nat → HttpPage := fun p =>
  if p ≤ 2 then HttpPage.content inWindowPage
  else if p ≤ 5 then HttpPage.content beforeWindowPage
  else HttpPage.content []

/-! ## Helper lemmas about the pagination loops -/

theorem processElems_mem (parse : String → Option Int) (startDate endDate : Int) :
    ∀ (elems : List (Option Item)) (r : Item),
      r ∈ (processElems parse startDate endDate elems).1 →
      ∃ d, parse r.date = some d ∧ startDate ≤ d ∧ d ≤ endDate := by
  intro elems
  induction elems with
  | nil => intro r hr; simp [processElems] at hr
  | cons oi rest ih =>
    intro r hr
    cases oi with
    | none => exact ih r (by simpa [processElems] using hr)
    | some reviewData =>
      simp only [processElems] at hr
      by_cases hin : isDateInRange (parse reviewData.date) startDate endDate = true
      · rw [if_pos hin] at hr
        rcases List.mem_cons.mp hr with h | h
        · subst h
          exact isDateInRange_eq_true.mp hin
        · exact ih r h
      · rw [if_neg hin] at hr
        cases hpd : parse reviewData.date with
        | none => rw [hpd] at hr; exact ih r hr
        | some d =>
          rw [hpd] at hr
          dsimp only at hr
          by_cases hlt : d < startDate
          · rw [if_pos hlt] at hr; exact ih r hr
          · rw [if_neg hlt] at hr; exact ih r hr

theorem sessionLoop_of_not_hasMore (parse : String → Option Int) (startDate endDate : Int)
    (env : Nat → PageFetch) (threshold : Nat) (maxPages : Int) :
    ∀ (fuel : Nat) (st : LoopState), st.hasMorePages = false →
      sessionLoop parse startDate endDate env threshold maxPages fuel st = st := by
  intro fuel st h
  cases fuel with
  | zero => rfl
  | succ n =>
    have hc : loopCond threshold maxPages st = false := by
      simp [loopCond, h]
    simp [sessionLoop, hc]

theorem httpLoop_of_not_hasMore (parse : String → Option Int) (startDate endDate : Int)
    (env : Nat → HttpPage) (maxPages : Int) :
    ∀ (fuel : Nat) (st : LoopState), st.hasMorePages = false →
      httpLoop parse startDate endDate env maxPages fuel st = st := by
  intro fuel st h
  cases fuel with
  | zero => rfl
  | succ n =>
    have hc : trustpilotLoopCond maxPages st = false := by
      simp [trustpilotLoopCond, loopCond, h]
    simp [httpLoop, hc]

theorem sessionLoop_reviews_inv (parse : String → Option Int) (startDate endDate : Int)
    (env : Nat → PageFetch) (threshold : Nat) (maxPages : Int) :
    ∀ (fuel : Nat) (st : LoopState),
      (∀ r ∈ st.reviews, ∃ d, parse r.date = some d ∧ startDate ≤ d ∧ d ≤ endDate) →
      ∀ r ∈ (sessionLoop parse startDate endDate env threshold maxPages fuel st).reviews,
        ∃ d, parse r.date = some d ∧ startDate ≤ d ∧ d ≤ endDate := by
  intro fuel
  induction fuel with
  | zero => intro st h; simpa [sessionLoop] using h
  | succ n ih =>
    intro st h r hr
    by_cases hc : loopCond threshold maxPages st = true
    · simp only [sessionLoop, if_pos hc] at hr
      cases henv : env st.page with
      | navFail =>
        rw [henv] at hr
        refine ih _ ?_ r hr
        exact h
      | contentFail =>
        rw [henv] at hr
        refine ih _ ?_ r hr
        exact h
      | content elems captcha captchaResolved =>
        rw [henv] at hr
        cases elems with
        | nil =>
          dsimp only at hr
          by_cases hcap : captcha = true
          · rw [if_pos hcap] at hr
            by_cases hres : captchaResolved = true
            · rw [if_pos hres] at hr
              refine ih _ ?_ r hr
              exact h
            · rw [if_neg hres] at hr
              refine ih _ ?_ r hr
              exact h
          · rw [if_neg hcap] at hr
            refine ih _ ?_ r hr
            exact h
        | cons e0 erest =>
          dsimp only at hr
          have hnew : ∀ r' ∈ st.reviews ++ (processElems parse startDate endDate (e0 :: erest)).1,
              ∃ d, parse r'.date = some d ∧ startDate ≤ d ∧ d ≤ endDate := by
            intro r' hr'
            rcases List.mem_append.mp hr' with h' | h'
            · exact h r' h'
            · exact processElems_mem parse startDate endDate (e0 :: erest) r' h'
          by_cases hstop : (processElems parse startDate endDate (e0 :: erest)).2.2 >
              (processElems parse startDate endDate (e0 :: erest)).2.1 ∧ st.page > 2
          · rw [if_pos hstop] at hr
            refine ih _ ?_ r hr
            exact hnew
          · rw [if_neg hstop] at hr
            refine ih _ ?_ r hr
            exact hnew
    · simp only [sessionLoop, if_neg hc] at hr
      exact h r hr

theorem httpLoop_reviews_inv (parse : String → Option Int) (startDate endDate : Int)
    (env : Nat → HttpPage) (maxPages : Int) :
    ∀ (fuel : Nat) (st : LoopState),
      (∀ r ∈ st.reviews, ∃ d, parse r.date = some d ∧ startDate ≤ d ∧ d ≤ endDate) →
      ∀ r ∈ (httpLoop parse startDate endDate env maxPages fuel st).reviews,
        ∃ d, parse r.date = some d ∧ startDate ≤ d ∧ d ≤ endDate := by
  intro fuel
  induction fuel with
  | zero => intro st h; simpa [httpLoop] using h
  | succ n ih =>
    intro st h r hr
    by_cases hc : trustpilotLoopCond maxPages st = true
    · simp only [httpLoop, if_pos hc] at hr
      cases henv : env st.page with
      | fetchFail =>
        rw [henv] at hr
        refine ih _ ?_ r hr
        exact h
      | content elems =>
        rw [henv] at hr
        cases elems with
        | nil =>
          dsimp only at hr
          refine ih _ ?_ r hr
          exact h
        | cons e0 erest =>
          dsimp only at hr
          have hnew : ∀ r' ∈ st.reviews ++ (processElems parse startDate endDate (e0 :: erest)).1,
              ∃ d, parse r'.date = some d ∧ startDate ≤ d ∧ d ≤ endDate := by
            intro r' hr'
            rcases List.mem_append.mp hr' with h' | h'
            · exact h r' h'
            · exact processElems_mem parse startDate endDate (e0 :: erest) r' h'
          by_cases hstop : (processElems parse startDate endDate (e0 :: erest)).2.2 >
              (processElems parse startDate endDate (e0 :: erest)).2.1 ∧ st.page > 2
          · rw [if_pos hstop] at hr
            refine ih _ ?_ r hr
            exact hnew
          · rw [if_neg hstop] at hr
            refine ih _ ?_ r hr
            exact hnew
    · simp only [httpLoop, if_neg hc] at hr
      exact h r hr

/-! ## Claim theorems -/

/-- C1: for every date window `[s, e]` with `s ≤ e` and every sequence of
pages processed by `scrapeReviews` (any environment, any fuel, each of the
three scrapers), every item appended to the returned reviews list has a
parsed date `d` with `s ≤ d ≤ e`; in particular an item whose date string
parses to `null` is never appended. -/
theorem scraped_reviews_within_window (parse : String → Option Int)
    (startDate endDate : Int) (hse : startDate ≤ endDate)
    (envS envC : Nat → PageFetch) (envH : Nat → HttpPage)
    (maxPages : Int) (fuel : Nat) :
    (∀ r ∈ (g2ScrapeReviews parse startDate endDate envS maxPages fuel).reviews,
        ∃ d, parse r.date = some d ∧ startDate ≤ d ∧ d ≤ endDate) ∧
    (∀ r ∈ (capterraScrapeReviews parse startDate endDate envC maxPages fuel).reviews,
        ∃ d, parse r.date = some d ∧ startDate ≤ d ∧ d ≤ endDate) ∧
    (∀ r ∈ (trustpilotScrapeReviews parse startDate endDate envH maxPages fuel).reviews,
        ∃ d, parse r.date = some d ∧ startDate ≤ d ∧ d ≤ endDate) := by
  refine ⟨?_, ?_, ?_⟩
  · exact sessionLoop_reviews_inv parse startDate endDate envS 3 maxPages fuel initState
      (by intro r hr; simp [initState] at hr)
  · exact sessionLoop_reviews_inv parse startDate endDate envC 1 maxPages fuel initState
      (by intro r hr; simp [initState] at hr)
  · exact httpLoop_reviews_inv parse startDate endDate envH maxPages fuel initState
      (by intro r hr; simp [initState] at hr)

/-- Witness for C1 at the synthetic window `[50, 200]` and listings. -/
theorem scraped_reviews_within_window_witness :
    (∀ r ∈ (g2ScrapeReviews demoParse 50 200 syntheticListing 15 10).reviews,
        ∃ d, demoParse r.date = some d ∧ 50 ≤ d ∧ d ≤ 200) ∧
    (∀ r ∈ (capterraScrapeReviews demoParse 50 200 syntheticListing 15 10).reviews,
        ∃ d, demoParse r.date = some d ∧ 50 ≤ d ∧ d ≤ 200) ∧
    (∀ r ∈ (trustpilotScrapeReviews demoParse 50 200 syntheticHttpListing 15 10).reviews,
        ∃ d, demoParse r.date = some d ∧ 50 ≤ d ∧ d ≤ 200) :=
  scraped_reviews_within_window demoParse 50 200 (by decide)
    syntheticListing syntheticListing syntheticHttpListing 15 10

theorem sessionLoop_halts_on_out_majority (parse : String → Option Int)
    (startDate endDate : Int) (env : Nat → PageFetch) (threshold : Nat) (maxPages : Int)
    (fuel : Nat) (st : LoopState) (elems : List (Option Item)) (captcha captchaResolved : Bool)
    (hc : loopCond threshold maxPages st = true) (hp : st.page > 2)
    (henv : env st.page = PageFetch.content elems captcha captchaResolved)
    (hne : elems ≠ [])
    (hmaj : (processElems parse startDate endDate elems).2.2 >
      (processElems parse startDate endDate elems).2.1) :
    (sessionLoop parse startDate endDate env threshold maxPages (fuel + 1) st).fetched =
      st.fetched ++ [st.page] := by
  cases elems with
  | nil => exact absurd rfl hne
  | cons e0 erest =>
    have hstep : sessionLoop parse startDate endDate env threshold maxPages (fuel + 1) st =
        sessionLoop parse startDate endDate env threshold maxPages fuel
          { page := st.page, consecutiveEmptyPages := 0, hasMorePages := false,
            reviews := st.reviews ++ (processElems parse startDate endDate (e0 :: erest)).1,
            fetched := st.fetched ++ [st.page] } := by
      simp only [sessionLoop, if_pos hc, henv]
      rw [if_pos ⟨hmaj, hp⟩]
    rw [hstep,
      sessionLoop_of_not_hasMore parse startDate endDate env threshold maxPages fuel _ rfl]

theorem httpLoop_halts_on_out_majority (parse : String → Option Int)
    (startDate endDate : Int) (env : Nat → HttpPage) (maxPages : Int)
    (fuel : Nat) (st : LoopState) (elems : List (Option Item))
    (hc : trustpilotLoopCond maxPages st = true) (hp : st.page > 2)
    (henv : env st.page = HttpPage.content elems)
    (hne : elems ≠ [])
    (hmaj : (processElems parse startDate endDate elems).2.2 >
      (processElems parse startDate endDate elems).2.1) :
    (httpLoop parse startDate endDate env maxPages (fuel + 1) st).fetched =
      st.fetched ++ [st.page] := by
  cases elems with
  | nil => exact absurd rfl hne
  | cons e0 erest =>
    have hstep : httpLoop parse startDate endDate env maxPages (fuel + 1) st =
        httpLoop parse startDate endDate env maxPages fuel
          { page := st.page, consecutiveEmptyPages := 0, hasMorePages := false,
            reviews := st.reviews ++ (processElems parse startDate endDate (e0 :: erest)).1,
            fetched := st.fetched ++ [st.page] } := by
      simp only [httpLoop, if_pos hc, henv]
      rw [if_pos ⟨hmaj, hp⟩]
    rw [hstep,
      httpLoop_of_not_hasMore parse startDate endDate env maxPages fuel _ rfl]

/-- C2: on any page beyond the second whose extracted items contain more
dates strictly before the window start than in-window items, the
pagination loop fetches no further page (first two conjuncts, for the
session-backed G2 loop and the HTTP-backed TrustPilot loop); on the
synthetic 5-page listing with pages 1-2 in-window and pages 3-5 before
the window start, both scrapers fetch exactly pages 1, 2, 3 and halt at
page 3 (last two conjuncts). -/
theorem early_stop_heuristic (parse : String → Option Int) (startDate endDate : Int)
    (envS : Nat → PageFetch) (envH : Nat → HttpPage) (maxPages : Int) (fuel : Nat)
    (st : LoopState) :
    (∀ elems captcha captchaResolved,
      g2LoopCond maxPages st = true → st.page > 2 →
      envS st.page = PageFetch.content elems captcha captchaResolved → elems ≠ [] →
      (processElems parse startDate endDate elems).2.2 >
        (processElems parse startDate endDate elems).2.1 →
      (sessionLoop parse startDate endDate envS 3 maxPages (fuel + 1) st).fetched =
        st.fetched ++ [st.page]) ∧
    (∀ elems,
      trustpilotLoopCond maxPages st = true → st.page > 2 →
      envH st.page = HttpPage.content elems → elems ≠ [] →
      (processElems parse startDate endDate elems).2.2 >
        (processElems parse startDate endDate elems).2.1 →
      (httpLoop parse startDate endDate envH maxPages (fuel + 1) st).fetched =
        st.fetched ++ [st.page]) ∧
    (g2ScrapeReviews demoParse 50 200 syntheticListing 15 10).fetched = [1, 2, 3] ∧
    (trustpilotScrapeReviews demoParse 50 200 syntheticHttpListing 10 10).fetched = [1, 2, 3] := by
  refine ⟨?_, ?_, by decide, by decide⟩
  · intro elems captcha captchaResolved hc hp henv hne hmaj
    exact sessionLoop_halts_on_out_majority parse startDate endDate envS 3 maxPages fuel st
      elems captcha captchaResolved hc hp henv hne hmaj
  · intro elems hc hp henv hne hmaj
    exact httpLoop_halts_on_out_majority parse startDate endDate envH maxPages fuel st
      elems hc hp henv hne hmaj

/-- Witness for C2: the G2 loop, sitting at page 3 of the synthetic
listing with pages 1 and 2 already fetched, fetches page 3 and nothing
further. -/
theorem early_stop_heuristic_witness :
    (sessionLoop demoParse 50 200 syntheticListing 3 15 (4 + 1)
      { page := 3, consecutiveEmptyPages := 0, hasMorePages := true,
        reviews := [], fetched := [1, 2] }).fetched = [1, 2] ++ [3] :=
  (early_stop_heuristic demoParse 50 200 syntheticListing syntheticHttpListing 15 4
      { page := 3, consecutiveEmptyPages := 0, hasMorePages := true,
        reviews := [], fetched := [1, 2] }).1 beforeWindowPage false false
    (by decide) (by decide) (by decide) (by decide) (by decide)

/-- C3 counterexample: the claim assigns threshold 1 to every
session-backed source, but the G2 loop condition (line 530) still
continues with the consecutive-empty-page counter at 2, so G2's threshold
is not 1. -/
theorem empty_page_threshold_claim_false :
    ¬ (∀ (maxPages : Int) (st : LoopState),
        g2LoopCond maxPages st = true → st.consecutiveEmptyPages < 1) := by
  intro hclaim
  have h2 : (2 : Nat) < 1 := hclaim (-1)
    { page := 3, consecutiveEmptyPages := 2, hasMorePages := true,
      reviews := [], fetched := [] } (by decide)
  omega

/-- C3 amended: each pagination loop continues only while the
consecutive-empty-page counter is below its threshold, and the thresholds
are 3 for TrustPilot (HTTP-backed), 3 for G2 and 1 for Capterra. -/
theorem empty_page_thresholds (maxPages : Int) (st : LoopState) :
    (g2LoopCond maxPages st = true → st.consecutiveEmptyPages < 3) ∧
    (capterraLoopCond maxPages st = true → st.consecutiveEmptyPages < 1) ∧
    (trustpilotLoopCond maxPages st = true → st.consecutiveEmptyPages < 3) := by
  refine ⟨?_, ?_, ?_⟩
  · intro h
    simp [g2LoopCond, loopCond] at h
    exact h.2
  · intro h
    simp [capterraLoopCond, loopCond] at h
    have h2 := h.2
    omega
  · intro h
    simp [trustpilotLoopCond, loopCond] at h
    exact h.2

/-- Witness for the amended C3 thresholds at the initial loop state. -/
theorem empty_page_thresholds_witness :
    g2LoopCond (-1) initState = true ∧ initState.consecutiveEmptyPages < 3 :=
  ⟨by decide, (empty_page_thresholds (-1) initState).1 (by decide)⟩

/-- C4: a 404 observed on any attempt makes `safeRequest` return the
not-found failure (null) at once, issuing no further attempt, whatever
the attempt index and however many retries remain. -/
theorem notFound_returns_immediately (env : Nat → ReqOutcome)
    (remaining attempt : Nat) (hrem : 0 < remaining)
    (h404 : env attempt = ReqOutcome.err (some 404)) :
    safeRequestGo env remaining attempt =
      { result := none, requests := 1, rlWaits := [] } := by
  cases remaining with
  | zero => omega
  | succ n => simp [safeRequestGo, h404]

/-- An environment answering 404 to every attempt. -/
def notFoundTrace : Nat → ReqOutcome := fun _ => ReqOutcome.err (some 404)

/-- Witness for C4: 404 on the very first of 3 attempts. -/
theorem notFound_returns_immediately_witness :
    safeRequestGo notFoundTrace 3 0 = { result := none, requests := 1, rlWaits := [] } :=
  notFound_returns_immediately notFoundTrace 3 0 (by decide) rfl

/-- The response sequence [429, 429, 200] by attempt index. -/
def rateLimitTrace : Nat → ReqOutcome := fun attempt =>
  if attempt = 0 then ReqOutcome.err (some 429)
  else if attempt = 1 then ReqOutcome.err (some 429)
  else ReqOutcome.resp 200

/-- C5: on the response sequence [429, 429, 200], `safeRequest` performs
exactly two rate-limit waits of `2^0 * 2000` and `2^1 * 2000` time-units
(strictly increasing) and returns a single successful 200 response after
three attempts. -/
theorem rate_limit_backoff_sequence :
    safeRequest rateLimitTrace 3 =
      { result := some 200, requests := 3, rlWaits := [2 ^ 0 * 2000, 2 ^ 1 * 2000] } ∧
    2 ^ 0 * 2000 < 2 ^ 1 * 2000 := by
  constructor
  · decide
  · decide

/-- C6 counterexample: with random draw 0 while the client's current
header is the default user-agent (pool entry 0), the 403 rotation
re-selects exactly the agent currently in use — so consecutive
403-triggered rotations can re-select the current agent. -/
theorem ua_rotation_claim_false :
    rotateUserAgent defaultUserAgent ⟨0, by decide⟩ = defaultUserAgent ∧
    defaultUserAgent ∈ userAgents := by
  constructor
  · rfl
  · decide

/-- C6 amended: on a 403 the client draws a user-agent at random from the
fixed four-element pool; the draw ignores the current agent and keeps no
rotation state, so it always selects from the pool but may re-select the
agent currently in use. -/
theorem ua_rotation_random_pool :
    (∀ (current : String) (r : Fin userAgents.length),
      rotateUserAgent current r ∈ userAgents) ∧
    (∀ ua ∈ userAgents, ∃ r, rotateUserAgent ua r = ua) := by
  constructor
  · intro current r
    exact List.get_mem userAgents r.1 r.2
  · intro ua hua
    rcases List.mem_iff_get.mp hua with ⟨i, hi⟩
    exact ⟨i, hi⟩

/-- Witness for the amended C6 at the default user-agent. -/
theorem ua_rotation_random_pool_witness :
    ∃ r, rotateUserAgent defaultUserAgent r = defaultUserAgent :=
  ua_rotation_random_pool.2 defaultUserAgent (by decide)

/-- C7 counterexample: from a fresh scraper state, two consecutive
successful acquisitions install distinct browser and page handles — the
second acquisition does not return the existing session unchanged, and
the two sessions are not identity-equal. -/
theorem session_reacquire_not_identical :
    (let st1 := (connectToExistingChrome
        { browser := none, page := none, nextHandle := 0 } (CdpOutcome.ok true)).1
     let st2 := (connectToExistingChrome st1 (CdpOutcome.ok true)).1
     st1.browser = some 0 ∧ st1.page = some 1 ∧
     st2.browser = some 2 ∧ st2.page = some 3 ∧
     st1.browser ≠ st2.browser ∧ st1.page ≠ st2.page) := by
  decide

/-- C7 amended: session acquisition is not idempotent —
`connectToExistingChrome` never checks for an existing session; every
successful call builds a new CDP connection and installs freshly
allocated browser and page handles, so consecutive acquisitions never
share a handle. -/
theorem session_acquire_allocates_fresh (st : ScraperConn) (hasPages : Bool) :
    ((connectToExistingChrome st (CdpOutcome.ok hasPages)).1).browser = some st.nextHandle ∧
    ((connectToExistingChrome st (CdpOutcome.ok hasPages)).1).page = some (st.nextHandle + 1) ∧
    ((connectToExistingChrome ((connectToExistingChrome st (CdpOutcome.ok hasPages)).1)
        (CdpOutcome.ok hasPages)).1).browser ≠
      ((connectToExistingChrome st (CdpOutcome.ok hasPages)).1).browser := by
  refine ⟨rfl, rfl, ?_⟩
  simp [connectToExistingChrome]

/-- C8: if the challenge detector never reports clear, the page-ready
waiter returns false (TimedOut), and the elapsed time at that return is
at or after the supplied budget — never before it. -/
theorem waitForPageReady_timeout_after_budget (env : Nat → Tick) (hasPattern : Bool)
    (maxWaitTime : Nat) (hblocked : ∀ j u, env j ≠ Tick.ok false u)
    (i elapsed : Nat) :
    (waitForPageReady env hasPattern maxWaitTime i elapsed).1 = false ∧
    maxWaitTime ≤ (waitForPageReady env hasPattern maxWaitTime i elapsed).2 := by
  have main : ∀ (n i elapsed : Nat), maxWaitTime - elapsed ≤ n →
      (waitForPageReady env hasPattern maxWaitTime i elapsed).1 = false ∧
      maxWaitTime ≤ (waitForPageReady env hasPattern maxWaitTime i elapsed).2 := by
    intro n
    induction n with
    | zero =>
      intro i elapsed hle
      have hnl : ¬ elapsed < maxWaitTime := by omega
      unfold waitForPageReady
      rw [dif_neg hnl]
      exact ⟨rfl, by omega⟩
    | succ n ihn =>
      intro i elapsed hle
      by_cases h : elapsed < maxWaitTime
      · unfold waitForPageReady
        rw [dif_pos h]
        cases henv : env i with
        | errored =>
          exact ihn (i + 1) (elapsed + 2000 + 2000) (by omega)
        | ok hasCaptcha urlMatches =>
          cases hasCaptcha with
          | false => exact absurd henv (hblocked i urlMatches)
          | true =>
            dsimp only
            rw [if_neg (by simp)]
            exact ihn (i + 1) (elapsed + 2000) (by omega)
      · unfold waitForPageReady
        rw [dif_neg h]
        exact ⟨rfl, by omega⟩
  exact main (maxWaitTime - elapsed) i elapsed le_rfl

/-- A page state whose detector reports blocked at every poll. -/
def blockedTicks : Nat → Tick := fun _ => Tick.ok true false

/-- Witness for C8 with a 5000-unit budget and an always-blocked page. -/
theorem waitForPageReady_timeout_after_budget_witness :
    (waitForPageReady blockedTicks false 5000 0 0).1 = false ∧
    5000 ≤ (waitForPageReady blockedTicks false 5000 0 0).2 :=
  waitForPageReady_timeout_after_budget blockedTicks false 5000
    (by intro j u h; simp [blockedTicks] at h) 0 0

/-- C9: the challenge detector never raises — whenever any internal
inspection step errors, the surrounding catch makes the detector report
false (not blocked) rather than propagate, for every text configuration
(hence for both the G2 and the Capterra detector). -/
theorem detectCaptcha_fail_open (texts : List String) (env : PageEnv) (e : Unit)
    (herr : detectCaptchaTry texts env = Except.error e) :
    detectCaptcha texts env = false := by
  simp [detectCaptcha, herr]

/-- A page whose selector probes find nothing and whose content read throws. -/
def failingPage : PageEnv :=
  { selectorFound := fun _ => Except.ok false, content := Except.error () }

/-- Witness for C9: the G2 detector on a page whose content read throws. -/
theorem detectCaptcha_fail_open_witness :
    detectCaptchaTry g2CaptchaText failingPage = Except.error () ∧
    g2DetectCaptcha failingPage = false :=
  ⟨rfl, detectCaptcha_fail_open g2CaptchaText failingPage () rfl⟩

theorem safeRequestGo_result_none_or_200 (env : Nat → ReqOutcome) :
    ∀ (remaining attempt : Nat),
      (safeRequestGo env remaining attempt).result = none ∨
      (safeRequestGo env remaining attempt).result = some 200 := by
  intro remaining
  induction remaining with
  | zero => intro attempt; left; rfl
  | succ n ih =>
    intro attempt
    cases henv : env attempt with
    | resp status =>
      simp only [safeRequestGo, henv]
      by_cases h200 : status = 200
      · rw [if_pos h200]
        right; rfl
      · rw [if_neg h200]
        dsimp only
        exact ih (attempt + 1)
    | err statusCode =>
      simp only [safeRequestGo, henv]
      by_cases h1 : statusCode = some 429
      · rw [if_pos h1]
        dsimp only
        exact ih (attempt + 1)
      · rw [if_neg h1]
        by_cases h2 : statusCode = some 403
        · rw [if_pos h2]
          dsimp only
          exact ih (attempt + 1)
        · rw [if_neg h2]
          by_cases h3 : statusCode = some 404
          · rw [if_pos h3]
            left; rfl
          · rw [if_neg h3]
            by_cases h4 : n = 0
            · rw [if_pos h4]
              left; rfl
            · rw [if_neg h4]
              dsimp only
              exact ih (attempt + 1)

/-- C10: `safeRequest` is total at its public interface — for every
environment of attempt outcomes (every throw being consumed by the catch
handler) and every retry budget it returns either a response whose status
is exactly 200 or null, never a response of any other status. -/
theorem safeRequest_result_none_or_200 (env : Nat → ReqOutcome) (maxRetries : Nat) :
    (safeRequest env maxRetries).result = none ∨
    (safeRequest env maxRetries).result = some 200 :=
  safeRequestGo_result_none_or_200 env maxRetries 0

end SaaSReviewScraper
